import Mathlib

/-!
Verification of the benchmark-result parsing and reporting pipeline of
`ceph-bench` (`main.py`).  The pipeline is embedded shallowly:

* Python values flowing through the pipeline are modelled by `PyVal`
  (ints, floats as exact rationals, strings, lists, tuples, dicts as
  association lists with unique keys, and `None`).
* Python exceptions are modelled by `PyErr`; fallible code returns
  `Except PyErr _`.
* `ast.literal_eval` is Python standard library; `parse_fio` is embedded
  from the already-evaluated value (`PyVal`) onwards.
* `int(s)` / `float(s)` are embedded for plain ASCII numerals (optional
  sign, digits, decimal point, exponent, surrounding whitespace); the
  exotic forms CPython additionally accepts (underscore digit grouping,
  non-ASCII digits, inf/nan) do not occur in benchmark output and are
  mapped to `ValueError` like any other unparseable token.
* `print` output is modelled as a list of `OutLine` values recording each
  printed line together with the computed quantities it interpolates;
  decimal rendering (`:.2f`) is presentation and is not re-modelled, but
  its type requirement (argument must be a number, otherwise the f-string
  raises) is.
-/

namespace CephBench

/-- An exact rational, used to model Python float values.  (Mathlib's `Rat`
operations are `@[extern]` and do not reduce definitionally, so a plain
structure is used instead; every value built by the pipeline goes through
`mkPyRat` and therefore has a positive denominator and is in lowest
terms.) -/
structure PyRat where
  num : Int
  den : Nat
deriving Repr, DecidableEq

/-- Normalized rational `n / d`.  (`d = 0` never arises in the pipeline:
parsing denominators are powers of ten and division guards its divisor.) -/
def mkPyRat (n d : Int) : PyRat :=
  if d = 0 then ⟨0, 0⟩
  else
    let s : Int := if d < 0 then -1 else 1
    let n2 := s * n
    let d2 := (s * d).toNat
    let g := Nat.gcd n2.natAbs d2
    ⟨n2 / (g : Int), d2 / g⟩

/-- Embed an integer. -/
def PyRat.ofInt (n : Int) : PyRat := ⟨n, 1⟩

/-- Negation (stays normalized). -/
def PyRat.neg (q : PyRat) : PyRat := ⟨-q.num, q.den⟩

/-- Addition. -/
def PyRat.add (a b : PyRat) : PyRat :=
  mkPyRat (a.num * (b.den : Int) + b.num * (a.den : Int))
    ((a.den : Int) * (b.den : Int))

/-- Division (caller guards a zero divisor). -/
def PyRat.div (a b : PyRat) : PyRat :=
  mkPyRat (a.num * (b.den : Int)) ((a.den : Int) * b.num)

/-- The value `(ip + fp / 10^fplen) * 10^ex` of a decimal literal with
integer part `ip`, fractional digits `fp` of length `fplen`, and exponent
`ex`. -/
def pyRatOfDecimal (ip fp fplen : Nat) (ex : Int) : PyRat :=
  let m : Int := (ip * 10 ^ fplen + fp : Nat)
  match ex with
  | Int.ofNat e => mkPyRat (m * 10 ^ e) ((10 : Int) ^ fplen)
  | Int.negSucc e => mkPyRat m ((10 : Int) ^ fplen * (10 : Int) ^ (e + 1))

/-- Python values handled by the pipeline. Floats are modelled exactly as
rationals; no rounding arithmetic occurs in the code under verification. -/
inductive PyVal where
  | vint : Int → PyVal
  | vfloat : PyRat → PyVal
  | vstr : String → PyVal
  | vlist : List PyVal → PyVal
  | vtuple : List PyVal → PyVal
  | vdict : List (String × PyVal) → PyVal
  | vnone : PyVal
deriving Repr

/-- Python exceptions raised by the pipeline. `keyError` carries the key,
`notImplementedError` its message; for the remaining kinds the message text
is irrelevant to the code's behaviour and is produced by `pyErrStr`. -/
inductive PyErr where
  | keyError : String → PyErr
  | indexError : PyErr
  | typeError : PyErr
  | valueError : PyErr
  | attributeError : PyErr
  | zeroDivisionError : PyErr
  | notImplementedError : String → PyErr
deriving Repr, DecidableEq

/-- `str(exc)` for the exceptions above, as used in diagnostics.
(`str(KeyError(k))` is the repr of the key; CPython's wording for the
others varies with operand types and is not load-bearing here.) -/
def pyErrStr : PyErr → String
  | .keyError k => "'" ++ k ++ "'"
  | .indexError => "list index out of range"
  | .typeError => "type error"
  | .valueError => "value error"
  | .attributeError => "attribute error"
  | .zeroDivisionError => "division by zero"
  | .notImplementedError m => m

/-- Python whitespace recognized by `str.split()` and `int()`/`float()`
stripping. -/
def isPyWs (c : Char) : Bool :=
  c = ' ' || c = '\t' || c = '\n' || c = '\r' || c = '\x0b' || c = '\x0c'

/-- Split a character list at every character satisfying `p`, keeping empty
pieces — the behaviour of Python's `str.split(sep)`.  (Lean's
`String.split` is well-founded recursion and does not reduce
definitionally, hence this structural version.) -/
def splitOnChar (p : Char → Bool) : List Char → List (List Char)
  | [] => [[]]
  | c :: rest =>
    let r := splitOnChar p rest
    if p c then [] :: r
    else
      match r with
      | [] => [[c]]
      | h :: t => (c :: h) :: t

/-- `s.split()` with no separator: split on whitespace runs, discarding
empty tokens. -/
def pySplit (s : String) : List String :=
  ((splitOnChar isPyWs s.data).map String.mk).filter (fun t => t ≠ "")

/-- `s.split('\n')`: newline split keeping empty pieces. -/
def pySplitLines (s : String) : List String :=
  (splitOnChar (fun c => c = '\n') s.data).map String.mk

/-- Leading/trailing whitespace strip on a character list. -/
def stripWs (l : List Char) : List Char :=
  ((l.dropWhile (fun c => isPyWs c)).reverse.dropWhile (fun c => isPyWs c)).reverse

/-- Decimal value of a digit list (most significant first). -/
def digitsToNat (l : List Char) : Nat :=
  l.foldl (fun n c => n * 10 + (c.toNat - '0'.toNat)) 0

/-- A non-empty all-digit character list, or failure. -/
def parseDigits (l : List Char) : Option Nat :=
  if l ≠ [] ∧ l.all (fun c => c.isDigit) then some (digitsToNat l) else none

/-- `int(s)`: optional surrounding whitespace, optional sign, digits. -/
def pyIntOfString (s : String) : Except PyErr Int :=
  match stripWs s.data with
  | '-' :: rest =>
      match parseDigits rest with
      | some n => Except.ok (-(n : Int))
      | none => Except.error PyErr.valueError
  | '+' :: rest =>
      match parseDigits rest with
      | some n => Except.ok (n : Int)
      | none => Except.error PyErr.valueError
  | l =>
      match parseDigits l with
      | some n => Except.ok (n : Int)
      | none => Except.error PyErr.valueError

/-- Trailing part of a float literal: empty, or an exponent
`(e|E)[sign]digits`; returns the exponent. -/
def parseExp : List Char → Option Int
  | [] => some 0
  | c :: rest =>
      if c = 'e' ∨ c = 'E' then
        match rest with
        | '-' :: r2 => (parseDigits r2).map (fun n => -(n : Int))
        | '+' :: r2 => (parseDigits r2).map (fun n => (n : Int))
        | r2 => (parseDigits r2).map (fun n => (n : Int))
      else none

/-- Unsigned float literal: `digits[.digits]` or `.digits` or `digits.`,
optionally followed by an exponent. -/
def parseFloatCore (l : List Char) : Option PyRat :=
  let ip := l.takeWhile (fun c => c.isDigit)
  let rest := l.dropWhile (fun c => c.isDigit)
  match rest with
  | '.' :: rest2 =>
      let fp := rest2.takeWhile (fun c => c.isDigit)
      let rest3 := rest2.dropWhile (fun c => c.isDigit)
      if ip = [] ∧ fp = [] then none
      else
        (parseExp rest3).map (fun ex =>
          pyRatOfDecimal (digitsToNat ip) (digitsToNat fp) fp.length ex)
  | _ =>
      if ip = [] then none
      else
        (parseExp rest).map (fun ex =>
          pyRatOfDecimal (digitsToNat ip) 0 0 ex)

/-- `float(s)`: optional surrounding whitespace, optional sign, float
literal. -/
def pyFloatOfString (s : String) : Except PyErr PyRat :=
  match stripWs s.data with
  | '-' :: rest =>
      match parseFloatCore rest with
      | some q => Except.ok q.neg
      | none => Except.error PyErr.valueError
  | '+' :: rest =>
      match parseFloatCore rest with
      | some q => Except.ok q
      | none => Except.error PyErr.valueError
  | l =>
      match parseFloatCore l with
      | some q => Except.ok q
      | none => Except.error PyErr.valueError

/-- `l[i]` on a Python list of tokens: `IndexError` when out of range. -/
def pyListGet (l : List String) (i : Nat) : Except PyErr String :=
  match l.get? i with
  | some v => Except.ok v
  | none => Except.error PyErr.indexError

/-- `extract_nums` (main.py:165-167):
`line = line.split(); return (int(line[1]), float(line[3]), float(line[5]))`.
The tuple is evaluated left to right. -/
def extract_nums (line : String) : Except PyErr (Int × PyRat × PyRat) :=
  let toks := pySplit line
  match pyListGet toks 1 with
  | Except.error e => Except.error e
  | Except.ok t1 =>
  match pyIntOfString t1 with
  | Except.error e => Except.error e
  | Except.ok n =>
  match pyListGet toks 3 with
  | Except.error e => Except.error e
  | Except.ok t3 =>
  match pyFloatOfString t3 with
  | Except.error e => Except.error e
  | Except.ok a =>
  match pyListGet toks 5 with
  | Except.error e => Except.error e
  | Except.ok t5 =>
  match pyFloatOfString t5 with
  | Except.error e => Except.error e
  | Except.ok b => Except.ok (n, a, b)

/-- The normalized result record: the Python dict `ret` built by the
format-specific result functions.  Those functions only ever set the keys
`elapsed`, `read` and `write`, so the dict is embedded as a structure with
one optional field per key (absent key = `none`). -/
structure ResultRecord where
  elapsed : Option PyVal
  read : Option PyVal
  write : Option PyVal
deriving Repr

/-- Python truthiness (`if ops:`). -/
def truthy : PyVal → Bool
  | .vint n => n != 0
  | .vfloat q => q.num != 0
  | .vstr s => s != ""
  | .vlist l => !l.isEmpty
  | .vtuple l => !l.isEmpty
  | .vdict d => !d.isEmpty
  | .vnone => false

/-- `v[k]` with a string key: dict lookup (`KeyError` when absent),
`TypeError` on non-dicts. -/
def pySubscriptStr (v : PyVal) (k : String) : Except PyErr PyVal :=
  match v with
  | .vdict d =>
      match d.lookup k with
      | some w => Except.ok w
      | none => Except.error (PyErr.keyError k)
  | _ => Except.error PyErr.typeError

/-- `v[i]` with a non-negative integer index: sequence indexing
(`IndexError` out of range; indexing a string yields a 1-char string);
an int key into a string-keyed dict is a `KeyError`. -/
def pySubscriptNat (v : PyVal) (i : Nat) : Except PyErr PyVal :=
  match v with
  | .vlist l =>
      match l.get? i with
      | some w => Except.ok w
      | none => Except.error PyErr.indexError
  | .vtuple l =>
      match l.get? i with
      | some w => Except.ok w
      | none => Except.error PyErr.indexError
  | .vstr s =>
      match s.data.get? i with
      | some c => Except.ok (PyVal.vstr (String.mk [c]))
      | none => Except.error PyErr.indexError
  | .vdict _ => Except.error (PyErr.keyError (toString i))
  | _ => Except.error PyErr.typeError

/-- `v.get(k)`: dict method returning `None` for an absent key;
`AttributeError` on non-dicts. -/
def pyGet (v : PyVal) (k : String) : Except PyErr PyVal :=
  match v with
  | .vdict d =>
      match d.lookup k with
      | some w => Except.ok w
      | none => Except.ok PyVal.vnone
  | _ => Except.error PyErr.attributeError

/-- Python `+` on the value forms the pipeline can meet. -/
def pyAdd : PyVal → PyVal → Except PyErr PyVal
  | .vint a, .vint b => Except.ok (PyVal.vint (a + b))
  | .vint a, .vfloat b => Except.ok (PyVal.vfloat ((PyRat.ofInt a).add b))
  | .vfloat a, .vint b => Except.ok (PyVal.vfloat (a.add (PyRat.ofInt b)))
  | .vfloat a, .vfloat b => Except.ok (PyVal.vfloat (a.add b))
  | .vstr a, .vstr b => Except.ok (PyVal.vstr (a ++ b))
  | .vlist a, .vlist b => Except.ok (PyVal.vlist (a ++ b))
  | .vtuple a, .vtuple b => Except.ok (PyVal.vtuple (a ++ b))
  | _, _ => Except.error PyErr.typeError

/-- Python `/`: true division, raising `ZeroDivisionError` on a zero
divisor and `TypeError` on non-numbers. -/
def pyDiv : PyVal → PyVal → Except PyErr PyVal
  | .vint a, .vint b =>
      if b = 0 then Except.error PyErr.zeroDivisionError
      else Except.ok (PyVal.vfloat (mkPyRat a b))
  | .vint a, .vfloat b =>
      if b.num = 0 then Except.error PyErr.zeroDivisionError
      else Except.ok (PyVal.vfloat ((PyRat.ofInt a).div b))
  | .vfloat a, .vint b =>
      if b = 0 then Except.error PyErr.zeroDivisionError
      else Except.ok (PyVal.vfloat (a.div (PyRat.ofInt b)))
  | .vfloat a, .vfloat b =>
      if b.num = 0 then Except.error PyErr.zeroDivisionError
      else Except.ok (PyVal.vfloat (a.div b))
  | _, _ => Except.error PyErr.typeError

/-- The numeric coercion performed by a `:.2f` format specification inside
an f-string: accepts ints and floats, raises on anything else.  The value
kept is exact; rendering to two decimals is presentation. -/
def pyFormatNum : PyVal → Except PyErr PyRat
  | .vint n => Except.ok (PyRat.ofInt n)
  | .vfloat q => Except.ok q
  | _ => Except.error PyErr.typeError

/-- `out[key] = v` on the record dict; the result functions only use the
three keys of the record. -/
def recSet (out : ResultRecord) (key : String) (v : PyVal) : ResultRecord :=
  if key = "elapsed" then { out with elapsed := some v }
  else if key = "read" then { out with read := some v }
  else if key = "write" then { out with write := some v }
  else out

/-- `extract_fio_info` (main.py:170-173):
`ops = jobs.get(key); if ops: out[key] = (ops['total_ios'], ops['iops'], ops['bw'])`. -/
def extract_fio_info (jobs : PyVal) (key : String) (out : ResultRecord) :
    Except PyErr ResultRecord :=
  match pyGet jobs key with
  | Except.error e => Except.error e
  | Except.ok ops =>
  if truthy ops then
    match pySubscriptStr ops "total_ios" with
    | Except.error e => Except.error e
    | Except.ok t =>
    match pySubscriptStr ops "iops" with
    | Except.error e => Except.error e
    | Except.ok i =>
    match pySubscriptStr ops "bw" with
    | Except.error e => Except.error e
    | Except.ok b => Except.ok (recSet out key (PyVal.vtuple [t, i, b]))
  else
    Except.ok out

/-- `parse_fio` (main.py:177-183), from the value `tab = ast.literal_eval(msg)`
onwards: `jobs = tab['jobs'][0]; ret = {'elapsed': jobs['elapsed']};
extract_fio_info(jobs, 'read', ret); extract_fio_info(jobs, 'write', ret)`. -/
def parse_fio (tab : PyVal) : Except PyErr ResultRecord :=
  match pySubscriptStr tab "jobs" with
  | Except.error e => Except.error e
  | Except.ok jobsArr =>
  match pySubscriptNat jobsArr 0 with
  | Except.error e => Except.error e
  | Except.ok jobs =>
  match pySubscriptStr jobs "elapsed" with
  | Except.error e => Except.error e
  | Except.ok ev =>
  match extract_fio_info jobs "read" ⟨some ev, none, none⟩ with
  | Except.error e => Except.error e
  | Except.ok ret => extract_fio_info jobs "write" ret

/-- Substring containment, Python's `pat in s`. -/
def strContains (s pat : String) : Bool :=
  (List.range (s.length + 1)).any (fun i => pat.data.isPrefixOf (s.data.drop i))

/-- One loop iteration of `parse_rbd_bench` (main.py:188-194): the
`if/elif` chain classifying a line by the first matching marker. -/
def rbdStep (ret : ResultRecord) (line : String) : Except PyErr ResultRecord :=
  if strContains line "read_ops" then
    match extract_nums line with
    | Except.error e => Except.error e
    | Except.ok t => Except.ok { ret with read := some (PyVal.vtuple
        [PyVal.vint t.1, PyVal.vfloat t.2.1, PyVal.vfloat t.2.2]) }
  else if strContains line "write_ops" then
    match extract_nums line with
    | Except.error e => Except.error e
    | Except.ok t => Except.ok { ret with write := some (PyVal.vtuple
        [PyVal.vint t.1, PyVal.vfloat t.2.1, PyVal.vfloat t.2.2]) }
  else if strContains line "elapsed" then
    match extract_nums line with
    | Except.error e => Except.error e
    | Except.ok t => Except.ok { ret with elapsed := some (PyVal.vint t.1) }
  else
    Except.ok ret

/-- `parse_rbd_bench` (main.py:185-196): `lines = msg.split('\n'); ret = {};
for line in lines: ...; return ret`. -/
def parse_rbd_bench (msg : String) : Except PyErr ResultRecord :=
  (pySplitLines msg).foldlM rbdStep ⟨none, none, none⟩

/-- The tuple value a line-oriented branch stores from an `extract_nums`
result. -/
def tripleOfNums (t : Int × PyRat × PyRat) : PyVal :=
  PyVal.vtuple [PyVal.vint t.1, PyVal.vfloat t.2.1, PyVal.vfloat t.2.2]

/-- The condition under which an iteration of the `if/elif` chain of
`parse_rbd_bench` stores into `read`: the line matches the first branch. -/
def setsRead (line : String) : Bool :=
  strContains line "read_ops"

/-- The condition under which an iteration stores into `write`: the line
reaches and matches the second branch. -/
def setsWrite (line : String) : Bool :=
  !strContains line "read_ops" && strContains line "write_ops"

/-- The condition under which an iteration stores into `elapsed`: the line
reaches and matches the third branch. -/
def setsElapsed (line : String) : Bool :=
  !strContains line "read_ops" && !strContains line "write_ops" &&
    strContains line "elapsed"

/-- `parse_rados_bench` (main.py:198-199). -/
def parse_rados_bench (_msg : String) : Except PyErr ResultRecord :=
  Except.error (PyErr.notImplementedError "Not implemented yet")

/-- Tags naming the three inner result functions of `get_parser`. -/
inductive ParserKind where
  | fio
  | rbdBench
  | radosBench
deriving Repr, DecidableEq

/-- `get_parser` (main.py:176-207): the dispatch chain at its end.  Python
returns `None` when no branch matches; the closures are named by
`ParserKind` tags. -/
def getParser (name : String) : Option ParserKind :=
  if name = "fio" then some ParserKind.fio
  else if name = "rbd-bench" then some ParserKind.rbdBench
  else if name = "rados-bench" then some ParserKind.radosBench
  else none

/-- The data-model invariant claimed for a stored direction field: a
`(count, rate, bandwidth)` tuple whose components are all non-negative. -/
def tripleNonneg : Option PyVal → Prop
  | some (PyVal.vtuple [PyVal.vint n, PyVal.vfloat a, PyVal.vfloat b]) =>
      0 ≤ n ∧ 0 ≤ a.num ∧ 0 ≤ b.num
  | _ => False

/-- One printed line, carrying the computed quantities the corresponding
f-string interpolates (decimal rendering is presentation). -/
inductive OutLine where
  | ranBenchmark : String → OutLine
  | summaryLine : PyRat → PyRat → PyVal → OutLine
  | readLine : PyVal → PyRat → PyVal → OutLine
  | writeLine : PyVal → PyRat → PyVal → OutLine
  | failedToPrint : String → OutLine
  | invalidBenchmark : String → OutLine
deriving Repr

/-- `num_ops = read_ops[0] + write_ops[0]` (main.py:232), left to right. -/
def numOps (read_ops write_ops : PyVal) : Except PyErr PyVal :=
  match pySubscriptNat read_ops 0 with
  | Except.error e => Except.error e
  | Except.ok r0 =>
  match pySubscriptNat write_ops 0 with
  | Except.error e => Except.error e
  | Except.ok w0 => pyAdd r0 w0

/-- Evaluation of the aggregate-line f-string (main.py:235-237):
`{elapsed:.2f}`, `{num_ops/elapsed:.2f}`, `{read_ops[2]+write_ops[2]}`,
left to right. -/
def summaryFstring (num_ops elapsedV read_ops write_ops : PyVal) :
    Except PyErr OutLine :=
  match pyFormatNum elapsedV with
  | Except.error e => Except.error e
  | Except.ok eq =>
  match pyDiv num_ops elapsedV with
  | Except.error e => Except.error e
  | Except.ok dv =>
  match pyFormatNum dv with
  | Except.error e => Except.error e
  | Except.ok dq =>
  match pySubscriptNat read_ops 2 with
  | Except.error e => Except.error e
  | Except.ok r2 =>
  match pySubscriptNat write_ops 2 with
  | Except.error e => Except.error e
  | Except.ok w2 =>
  match pyAdd r2 w2 with
  | Except.error e => Except.error e
  | Except.ok bw => Except.ok (OutLine.summaryLine eq dq bw)

/-- Evaluation of a per-direction f-string (main.py:238-243):
`{ops[0]}`, `{ops[1]:.2f}`, `{ops[2]}`, left to right; `mk` is the
`readLine` or `writeLine` constructor. -/
def dirFstring (mk : PyVal → PyRat → PyVal → OutLine) (ops : PyVal) :
    Except PyErr OutLine :=
  match pySubscriptNat ops 0 with
  | Except.error e => Except.error e
  | Except.ok o0 =>
  match pySubscriptNat ops 1 with
  | Except.error e => Except.error e
  | Except.ok o1 =>
  match pyFormatNum o1 with
  | Except.error e => Except.error e
  | Except.ok o1q =>
  match pySubscriptNat ops 2 with
  | Except.error e => Except.error e
  | Except.ok o2 => Except.ok (mk o0 o1q o2)

/-- `print_results` (main.py:228-243).  Returns the lines printed before
control left the function, and the exception that escaped, if any.
Order follows the source: the `ran benchmark` header prints first; then
`read_ops, write_ops = parsed_data['read'], parsed_data['write']` (left to
right), `num_ops = read_ops[0] + write_ops[0]`,
`elapsed = parsed_data['elapsed']`; then each summary f-string is
evaluated left to right and printed. -/
def print_results (parsed_data : ResultRecord) (name : String) :
    List OutLine × Option PyErr :=
  let out := [OutLine.ranBenchmark name]
  match parsed_data.read with
  | none => (out, some (PyErr.keyError "read"))
  | some read_ops =>
  match parsed_data.write with
  | none => (out, some (PyErr.keyError "write"))
  | some write_ops =>
  match numOps read_ops write_ops with
  | Except.error e => (out, some e)
  | Except.ok num_ops =>
  match parsed_data.elapsed with
  | none => (out, some (PyErr.keyError "elapsed"))
  | some elapsedV =>
  match summaryFstring num_ops elapsedV read_ops write_ops with
  | Except.error e => (out, some e)
  | Except.ok line2 =>
  let out := out ++ [line2]
  match dirFstring OutLine.readLine read_ops with
  | Except.error e => (out, some e)
  | Except.ok line3 =>
  let out := out ++ [line3]
  match dirFstring OutLine.writeLine write_ops with
  | Except.error e => (out, some e)
  | Except.ok line4 => (out ++ [line4], none)

/-- The reporting tail of `run_benchmark` (main.py:269-273):
`try: print_results(rv, action_name) except Exception as exc:
print('Failed to print results: ', str(exc))`.  Total: the handler
swallows every exception, so the run never terminates here. -/
def report_phase (rv : ResultRecord) (action_name : String) : List OutLine :=
  match print_results rv action_name with
  | (out, none) => out
  | (out, some e) => out ++ [OutLine.failedToPrint (pyErrStr e)]

/-- The dispatch head of `run_benchmark` (main.py:252-255):
`parser = get_parser(action_name); if not parser:
print('Invalid benchmark specified: ', action_name); return`.
Returns the selected variant (if any) and the diagnostic output. -/
def dispatch_phase (action_name : String) : Option ParserKind × List OutLine :=
  match getParser action_name with
  | none => (none, [OutLine.invalidBenchmark action_name])
  | some p => (some p, [])

/-! ## Theorems -/

/-- Helper: a line matching the first (`read_ops`) branch stores the
extracted triple into `read` and touches nothing else. -/
theorem rbdStep_read_set (ret : ResultRecord) (line : String)
    (t : Int × PyRat × PyRat)
    (h1 : strContains line "read_ops" = true)
    (hx : extract_nums line = Except.ok t) :
    rbdStep ret line = Except.ok { ret with read := some (tripleOfNums t) } := by
  unfold rbdStep
  rw [if_pos h1, hx]
  rfl

/-- Helper: a line reaching and matching the second (`write_ops`) branch
stores the extracted triple into `write` and touches nothing else. -/
theorem rbdStep_write_set (ret : ResultRecord) (line : String)
    (t : Int × PyRat × PyRat)
    (h1 : strContains line "read_ops" = false)
    (h2 : strContains line "write_ops" = true)
    (hx : extract_nums line = Except.ok t) :
    rbdStep ret line = Except.ok { ret with write := some (tripleOfNums t) } := by
  unfold rbdStep
  rw [if_neg (by simp [h1]), if_pos h2, hx]
  rfl

/-- Helper: a line reaching and matching the third (`elapsed`) branch
stores the first extracted number into `elapsed` and touches nothing
else. -/
theorem rbdStep_elapsed_set (ret : ResultRecord) (line : String)
    (t : Int × PyRat × PyRat)
    (h1 : strContains line "read_ops" = false)
    (h2 : strContains line "write_ops" = false)
    (h3 : strContains line "elapsed" = true)
    (hx : extract_nums line = Except.ok t) :
    rbdStep ret line = Except.ok { ret with elapsed := some (PyVal.vint t.1) } := by
  unfold rbdStep
  rw [if_neg (by simp [h1]), if_neg (by simp [h2]), if_pos h3, hx]

/-- Helper: a line matching no marker leaves the record unchanged. -/
theorem rbdStep_ignore (ret : ResultRecord) (line : String)
    (h1 : strContains line "read_ops" = false)
    (h2 : strContains line "write_ops" = false)
    (h3 : strContains line "elapsed" = false) :
    rbdStep ret line = Except.ok ret := by
  unfold rbdStep
  rw [if_neg (by simp [h1]), if_neg (by simp [h2]), if_neg (by simp [h3])]

/-- Helper: a line not matching the `read_ops` branch leaves `read`
unchanged. -/
theorem rbdStep_read_preserved (ret ret2 : ResultRecord) (line : String)
    (hr : setsRead line = false)
    (h : rbdStep ret line = Except.ok ret2) : ret2.read = ret.read := by
  unfold rbdStep at h
  rw [if_neg (by simp [setsRead] at hr; simp [hr])] at h
  split at h
  · split at h
    · exact absurd h (by simp)
    · rw [Except.ok.injEq] at h
      rw [← h]
  · split at h
    · split at h
      · exact absurd h (by simp)
      · rw [Except.ok.injEq] at h
        rw [← h]
    · rw [Except.ok.injEq] at h
      rw [← h]

/-- Helper: a line not reaching-and-matching the `write_ops` branch leaves
`write` unchanged. -/
theorem rbdStep_write_preserved (ret ret2 : ResultRecord) (line : String)
    (hw : setsWrite line = false)
    (h : rbdStep ret line = Except.ok ret2) : ret2.write = ret.write := by
  unfold rbdStep at h
  split at h
  · split at h
    · exact absurd h (by simp)
    · rw [Except.ok.injEq] at h
      rw [← h]
  · rename_i hnr
    split at h
    · rename_i hww
      rw [Bool.not_eq_true] at hnr
      simp [setsWrite, hnr, hww] at hw
    · split at h
      · split at h
        · exact absurd h (by simp)
        · rw [Except.ok.injEq] at h
          rw [← h]
      · rw [Except.ok.injEq] at h
        rw [← h]

/-- Helper: a line not reaching-and-matching the `elapsed` branch leaves
`elapsed` unchanged. -/
theorem rbdStep_elapsed_preserved (ret ret2 : ResultRecord) (line : String)
    (he : setsElapsed line = false)
    (h : rbdStep ret line = Except.ok ret2) : ret2.elapsed = ret.elapsed := by
  unfold rbdStep at h
  split at h
  · split at h
    · exact absurd h (by simp)
    · rw [Except.ok.injEq] at h
      rw [← h]
  · rename_i hnr
    split at h
    · split at h
      · exact absurd h (by simp)
      · rw [Except.ok.injEq] at h
        rw [← h]
    · rename_i hnw
      split at h
      · rename_i hee
        rw [Bool.not_eq_true] at hnr hnw
        simp [setsElapsed, hnr, hnw, hee] at he
      · rw [Except.ok.injEq] at h
        rw [← h]

/-- Helper: a successful fold over lines none of which matches the
`read_ops` branch leaves `read` unchanged. -/
theorem rbdFold_read_preserved (ls : List String) :
    ∀ (r ret2 : ResultRecord),
      (∀ l ∈ ls, setsRead l = false) →
      List.foldlM rbdStep r ls = Except.ok ret2 → ret2.read = r.read := by
  induction ls with
  | nil =>
    intro r ret2 _ h
    rw [List.foldlM_nil] at h
    rw [show (pure r : Except PyErr ResultRecord) = Except.ok r from rfl,
      Except.ok.injEq] at h
    rw [← h]
  | cons a as ih =>
    intro r ret2 hall h
    rw [List.foldlM_cons] at h
    cases hs : rbdStep r a with
    | error e =>
      rw [hs] at h
      exact absurd h (by simp [Bind.bind, Except.bind])
    | ok r1 =>
      rw [hs] at h
      rw [show ((Except.ok r1 : Except PyErr ResultRecord) >>=
          fun b => List.foldlM rbdStep b as) = List.foldlM rbdStep r1 as
        from rfl] at h
      exact (ih r1 ret2 (fun l hl => hall l (List.mem_cons_of_mem a hl)) h).trans
        (rbdStep_read_preserved r r1 a (hall a (List.mem_cons_self a as)) hs)

/-- Helper: a successful fold over lines none of which reaches-and-matches
the `write_ops` branch leaves `write` unchanged. -/
theorem rbdFold_write_preserved (ls : List String) :
    ∀ (r ret2 : ResultRecord),
      (∀ l ∈ ls, setsWrite l = false) →
      List.foldlM rbdStep r ls = Except.ok ret2 → ret2.write = r.write := by
  induction ls with
  | nil =>
    intro r ret2 _ h
    rw [List.foldlM_nil] at h
    rw [show (pure r : Except PyErr ResultRecord) = Except.ok r from rfl,
      Except.ok.injEq] at h
    rw [← h]
  | cons a as ih =>
    intro r ret2 hall h
    rw [List.foldlM_cons] at h
    cases hs : rbdStep r a with
    | error e =>
      rw [hs] at h
      exact absurd h (by simp [Bind.bind, Except.bind])
    | ok r1 =>
      rw [hs] at h
      rw [show ((Except.ok r1 : Except PyErr ResultRecord) >>=
          fun b => List.foldlM rbdStep b as) = List.foldlM rbdStep r1 as
        from rfl] at h
      exact (ih r1 ret2 (fun l hl => hall l (List.mem_cons_of_mem a hl)) h).trans
        (rbdStep_write_preserved r r1 a (hall a (List.mem_cons_self a as)) hs)

/-- Helper: a successful fold over lines none of which reaches-and-matches
the `elapsed` branch leaves `elapsed` unchanged. -/
theorem rbdFold_elapsed_preserved (ls : List String) :
    ∀ (r ret2 : ResultRecord),
      (∀ l ∈ ls, setsElapsed l = false) →
      List.foldlM rbdStep r ls = Except.ok ret2 → ret2.elapsed = r.elapsed := by
  induction ls with
  | nil =>
    intro r ret2 _ h
    rw [List.foldlM_nil] at h
    rw [show (pure r : Except PyErr ResultRecord) = Except.ok r from rfl,
      Except.ok.injEq] at h
    rw [← h]
  | cons a as ih =>
    intro r ret2 hall h
    rw [List.foldlM_cons] at h
    cases hs : rbdStep r a with
    | error e =>
      rw [hs] at h
      exact absurd h (by simp [Bind.bind, Except.bind])
    | ok r1 =>
      rw [hs] at h
      rw [show ((Except.ok r1 : Except PyErr ResultRecord) >>=
          fun b => List.foldlM rbdStep b as) = List.foldlM rbdStep r1 as
        from rfl] at h
      exact (ih r1 ret2 (fun l hl => hall l (List.mem_cons_of_mem a hl)) h).trans
        (rbdStep_elapsed_preserved r r1 a (hall a (List.mem_cons_self a as)) hs)

/-- Helper: removing a line that matches no marker from the line sequence
does not change the fold's result. -/
theorem rbdFold_erase (junk : String)
    (h1 : strContains junk "read_ops" = false)
    (h2 : strContains junk "write_ops" = false)
    (h3 : strContains junk "elapsed" = false) :
    ∀ (ls1 ls2 : List String) (r : ResultRecord),
      List.foldlM rbdStep r (ls1 ++ junk :: ls2)
        = List.foldlM rbdStep r (ls1 ++ ls2) := by
  intro ls1
  induction ls1 with
  | nil =>
    intro ls2 r
    rw [List.nil_append, List.nil_append, List.foldlM_cons,
      rbdStep_ignore r junk h1 h2 h3]
    rfl
  | cons a as ih =>
    intro ls2 r
    rw [List.cons_append, List.cons_append, List.foldlM_cons, List.foldlM_cons]
    cases hs : rbdStep r a with
    | error e => rfl
    | ok r1 =>
      show List.foldlM rbdStep r1 (as ++ junk :: ls2)
        = List.foldlM rbdStep r1 (as ++ ls2)
      exact ih ls2 r1

/-- C6: for every multi-line input to the line-oriented variant A, lines
matching no marker are ignored (removing such a line from any input does
not change the result), and when several lines store into the same field
the last such line wins: for each field, on any input whose line list
decomposes around the last line storing into it, a successful parse holds
that line's value.  Concretely, the claim's two-line input yields
`read = (100, 50.5, 1024.0)` and `write = (80, 40.0, 900.0)`, and
duplicate `elapsed` lines yield the value of the last one. -/
theorem claim6_rbd_line_laws :
    (∀ (msg1 msg2 junk : String) (ls1 ls2 : List String),
        pySplitLines msg1 = ls1 ++ junk :: ls2 →
        pySplitLines msg2 = ls1 ++ ls2 →
        strContains junk "read_ops" = false →
        strContains junk "write_ops" = false →
        strContains junk "elapsed" = false →
        parse_rbd_bench msg1 = parse_rbd_bench msg2)
    ∧ (∀ (msg : String) (ls1 ls2 : List String) (line : String)
         (t : Int × PyRat × PyRat) (ret2 : ResultRecord),
        pySplitLines msg = ls1 ++ line :: ls2 →
        setsRead line = true →
        extract_nums line = Except.ok t →
        (∀ l ∈ ls2, setsRead l = false) →
        parse_rbd_bench msg = Except.ok ret2 →
        ret2.read = some (tripleOfNums t))
    ∧ (∀ (msg : String) (ls1 ls2 : List String) (line : String)
         (t : Int × PyRat × PyRat) (ret2 : ResultRecord),
        pySplitLines msg = ls1 ++ line :: ls2 →
        setsWrite line = true →
        extract_nums line = Except.ok t →
        (∀ l ∈ ls2, setsWrite l = false) →
        parse_rbd_bench msg = Except.ok ret2 →
        ret2.write = some (tripleOfNums t))
    ∧ (∀ (msg : String) (ls1 ls2 : List String) (line : String)
         (t : Int × PyRat × PyRat) (ret2 : ResultRecord),
        pySplitLines msg = ls1 ++ line :: ls2 →
        setsElapsed line = true →
        extract_nums line = Except.ok t →
        (∀ l ∈ ls2, setsElapsed l = false) →
        parse_rbd_bench msg = Except.ok ret2 →
        ret2.elapsed = some (PyVal.vint t.1))
    ∧ parse_rbd_bench "read_ops: 100 iops: 50.5 bw: 1024\nwrite_ops: 80 iops: 40.0 bw: 900"
      = Except.ok ⟨none,
          some (PyVal.vtuple [PyVal.vint 100, PyVal.vfloat ⟨101, 2⟩, PyVal.vfloat ⟨1024, 1⟩]),
          some (PyVal.vtuple [PyVal.vint 80, PyVal.vfloat ⟨40, 1⟩, PyVal.vfloat ⟨900, 1⟩])⟩
    ∧ parse_rbd_bench "elapsed: 5 x: 0 y: 0\nelapsed: 9 x: 0 y: 0"
      = Except.ok ⟨some (PyVal.vint 9), none, none⟩ := by
  refine ⟨?_, ?_, ?_, ?_, rfl, rfl⟩
  · intro msg1 msg2 junk ls1 ls2 hs1 hs2 hj1 hj2 hj3
    unfold parse_rbd_bench
    rw [hs1, hs2, rbdFold_erase junk hj1 hj2 hj3 ls1 ls2]
  · intro msg ls1 ls2 line t ret2 hsplit hset hx hall hparse
    unfold parse_rbd_bench at hparse
    rw [hsplit, List.foldlM_append] at hparse
    cases hf1 : List.foldlM rbdStep (⟨none, none, none⟩ : ResultRecord) ls1 with
    | error e =>
      rw [hf1] at hparse
      exact absurd hparse (by simp [Bind.bind, Except.bind])
    | ok r1 =>
      rw [hf1] at hparse
      rw [show ((Except.ok r1 : Except PyErr ResultRecord) >>=
          fun b => List.foldlM rbdStep b (line :: ls2))
          = List.foldlM rbdStep r1 (line :: ls2) from rfl] at hparse
      rw [List.foldlM_cons, rbdStep_read_set r1 line t hset hx] at hparse
      rw [show ((Except.ok { r1 with read := some (tripleOfNums t) } :
            Except PyErr ResultRecord) >>= fun b => List.foldlM rbdStep b ls2)
          = List.foldlM rbdStep { r1 with read := some (tripleOfNums t) } ls2
        from rfl] at hparse
      exact rbdFold_read_preserved ls2 _ ret2 hall hparse
  · intro msg ls1 ls2 line t ret2 hsplit hset hx hall hparse
    rw [setsWrite, Bool.and_eq_true, Bool.not_eq_true'] at hset
    unfold parse_rbd_bench at hparse
    rw [hsplit, List.foldlM_append] at hparse
    cases hf1 : List.foldlM rbdStep (⟨none, none, none⟩ : ResultRecord) ls1 with
    | error e =>
      rw [hf1] at hparse
      exact absurd hparse (by simp [Bind.bind, Except.bind])
    | ok r1 =>
      rw [hf1] at hparse
      rw [show ((Except.ok r1 : Except PyErr ResultRecord) >>=
          fun b => List.foldlM rbdStep b (line :: ls2))
          = List.foldlM rbdStep r1 (line :: ls2) from rfl] at hparse
      rw [List.foldlM_cons,
        rbdStep_write_set r1 line t hset.1 hset.2 hx] at hparse
      rw [show ((Except.ok { r1 with write := some (tripleOfNums t) } :
            Except PyErr ResultRecord) >>= fun b => List.foldlM rbdStep b ls2)
          = List.foldlM rbdStep { r1 with write := some (tripleOfNums t) } ls2
        from rfl] at hparse
      exact rbdFold_write_preserved ls2 _ ret2 hall hparse
  · intro msg ls1 ls2 line t ret2 hsplit hset hx hall hparse
    rw [setsElapsed, Bool.and_eq_true, Bool.and_eq_true,
      Bool.not_eq_true', Bool.not_eq_true'] at hset
    unfold parse_rbd_bench at hparse
    rw [hsplit, List.foldlM_append] at hparse
    cases hf1 : List.foldlM rbdStep (⟨none, none, none⟩ : ResultRecord) ls1 with
    | error e =>
      rw [hf1] at hparse
      exact absurd hparse (by simp [Bind.bind, Except.bind])
    | ok r1 =>
      rw [hf1] at hparse
      rw [show ((Except.ok r1 : Except PyErr ResultRecord) >>=
          fun b => List.foldlM rbdStep b (line :: ls2))
          = List.foldlM rbdStep r1 (line :: ls2) from rfl] at hparse
      rw [List.foldlM_cons,
        rbdStep_elapsed_set r1 line t hset.1.1 hset.1.2 hset.2 hx] at hparse
      rw [show ((Except.ok { r1 with elapsed := some (PyVal.vint t.1) } :
            Except PyErr ResultRecord) >>= fun b => List.foldlM rbdStep b ls2)
          = List.foldlM rbdStep { r1 with elapsed := some (PyVal.vint t.1) } ls2
        from rfl] at hparse
      exact rbdFold_elapsed_preserved ls2 _ ret2 hall hparse

/-- C6 (witness): the laws applied to concrete inputs — an unrecognized
line removed, and duplicated `read_ops`, `write_ops` and `elapsed` lines
where the last occurrence wins. -/
theorem claim6_witness :
    parse_rbd_bench "read_ops 1 x 2 y 3\nnomarker\nelapsed 4 x 5 y 6"
      = parse_rbd_bench "read_ops 1 x 2 y 3\nelapsed 4 x 5 y 6"
    ∧ (⟨none, some (PyVal.vtuple
          [PyVal.vint 4, PyVal.vfloat ⟨5, 1⟩, PyVal.vfloat ⟨6, 1⟩]), none⟩ :
        ResultRecord).read = some (tripleOfNums (4, ⟨5, 1⟩, ⟨6, 1⟩))
    ∧ (⟨none, none, some (PyVal.vtuple
          [PyVal.vint 4, PyVal.vfloat ⟨5, 1⟩, PyVal.vfloat ⟨6, 1⟩])⟩ :
        ResultRecord).write = some (tripleOfNums (4, ⟨5, 1⟩, ⟨6, 1⟩))
    ∧ (⟨some (PyVal.vint 9), none, none⟩ : ResultRecord).elapsed
        = some (PyVal.vint 9) :=
  ⟨claim6_rbd_line_laws.1 "read_ops 1 x 2 y 3\nnomarker\nelapsed 4 x 5 y 6"
      "read_ops 1 x 2 y 3\nelapsed 4 x 5 y 6" "nomarker"
      ["read_ops 1 x 2 y 3"] ["elapsed 4 x 5 y 6"] rfl rfl rfl rfl rfl,
   claim6_rbd_line_laws.2.1 "read_ops 1 a 2 b 3\nread_ops 4 a 5 b 6"
      ["read_ops 1 a 2 b 3"] [] "read_ops 4 a 5 b 6" (4, ⟨5, 1⟩, ⟨6, 1⟩) _
      rfl rfl rfl (by simp) rfl,
   claim6_rbd_line_laws.2.2.1 "write_ops 1 a 2 b 3\nwrite_ops 4 a 5 b 6"
      ["write_ops 1 a 2 b 3"] [] "write_ops 4 a 5 b 6" (4, ⟨5, 1⟩, ⟨6, 1⟩) _
      rfl rfl rfl (by simp) rfl,
   claim6_rbd_line_laws.2.2.2.1 "elapsed: 5 x: 0 y: 0\nelapsed: 9 x: 0 y: 0"
      ["elapsed: 5 x: 0 y: 0"] [] "elapsed: 9 x: 0 y: 0" (9, ⟨0, 1⟩, ⟨0, 1⟩) _
      rfl rfl rfl (by simp) rfl⟩

/-- Helper: `recSet` never clears the `elapsed` field. -/
theorem recSet_elapsed_isSome (out : ResultRecord) (key : String) (v : PyVal)
    (h : out.elapsed.isSome) : (recSet out key v).elapsed.isSome := by
  unfold recSet
  split
  · simp
  · split
    · simpa using h
    · split
      · simpa using h
      · exact h

/-- Helper: `extract_fio_info` preserves presence of `elapsed` on
success. -/
theorem extract_fio_info_elapsed_isSome (jobs : PyVal) (key : String)
    (out out2 : ResultRecord)
    (h : extract_fio_info jobs key out = Except.ok out2)
    (hsome : out.elapsed.isSome) : out2.elapsed.isSome := by
  unfold extract_fio_info at h
  split at h
  · exact absurd h (by simp)
  · split at h
    · split at h
      · exact absurd h (by simp)
      · split at h
        · exact absurd h (by simp)
        · split at h
          · exact absurd h (by simp)
          · rw [Except.ok.injEq] at h
            rw [← h]
            exact recSet_elapsed_isSome out key _ hsome
    · rw [Except.ok.injEq] at h
      rw [← h]
      exact hsome

/-- C3 (counterexample): the line-oriented variant A returns successfully
on the empty input — zero recognized marker lines — yet the produced
record has no `elapsed` field, so success does not imply `elapsed` is
present. -/
theorem claim3_counterexample :
    parse_rbd_bench "" = Except.ok ⟨none, none, none⟩ ∧
    (⟨none, none, none⟩ : ResultRecord).elapsed = none :=
  ⟨rfl, rfl⟩

/-- C3 (amended): whenever the structured-report variant returns
successfully, the produced record contains `elapsed`; the line-oriented
variant A, by contrast, can succeed with every field absent (zero
recognized marker lines). -/
theorem claim3_fio_elapsed_present (tab : PyVal) (r : ResultRecord)
    (h : parse_fio tab = Except.ok r) :
    r.elapsed.isSome ∧ parse_rbd_bench "" = Except.ok ⟨none, none, none⟩ := by
  refine ⟨?_, rfl⟩
  unfold parse_fio at h
  split at h
  · exact absurd h (by simp)
  · split at h
    · exact absurd h (by simp)
    · split at h
      · exact absurd h (by simp)
      · split at h
        · exact absurd h (by simp)
        · rename_i ev hread
          exact extract_fio_info_elapsed_isSome _ _ _ _ h
            (extract_fio_info_elapsed_isSome _ _ _ _ hread (by simp))

/-- C3 (witness): the amended theorem applied to a concrete structured
report. -/
theorem claim3_witness :
    (⟨some (PyVal.vfloat ⟨25, 2⟩),
      some (PyVal.vtuple [PyVal.vint 500, PyVal.vfloat ⟨40, 1⟩, PyVal.vint 2000]),
      none⟩ : ResultRecord).elapsed.isSome ∧
    parse_rbd_bench "" = Except.ok ⟨none, none, none⟩ :=
  claim3_fio_elapsed_present
    (PyVal.vdict [("jobs", PyVal.vlist [PyVal.vdict
      [("elapsed", PyVal.vfloat ⟨25, 2⟩),
       ("read", PyVal.vdict [("total_ios", PyVal.vint 500),
         ("iops", PyVal.vfloat ⟨40, 1⟩), ("bw", PyVal.vint 2000)])]])])
    _ rfl

/-- C4 (counterexample): the line-oriented variant A successfully produces
a record whose populated `read` triple has a negative count, rate and
bandwidth — the parsers enforce no sign constraint. -/
theorem claim4_counterexample :
    parse_rbd_bench "read_ops -1 iops -2.5 bw -3.5"
      = Except.ok ⟨none, some (PyVal.vtuple
          [PyVal.vint (-1), PyVal.vfloat ⟨-5, 2⟩, PyVal.vfloat ⟨-7, 2⟩]), none⟩
    ∧ ¬ tripleNonneg (some (PyVal.vtuple
          [PyVal.vint (-1), PyVal.vfloat ⟨-5, 2⟩, PyVal.vfloat ⟨-7, 2⟩])) := by
  refine ⟨rfl, ?_⟩
  intro hc
  exact absurd hc.1 (by omega)

/-- C4 (amended): every populated triple — stored by the line-oriented
`read_ops` branch, the line-oriented `write_ops` branch, or the
structured-report extractor for either direction key — carries exactly
the numeric values taken from the raw input, with no sign validation, so
it satisfies the non-negativity invariant precisely when those input
values are non-negative. -/
theorem claim4_triple_verbatim :
    (∀ (ret ret2 : ResultRecord) (line : String) (n : Int) (a b : PyRat),
        strContains line "read_ops" = true →
        extract_nums line = Except.ok (n, a, b) →
        rbdStep ret line = Except.ok ret2 →
        ret2.read = some (PyVal.vtuple
          [PyVal.vint n, PyVal.vfloat a, PyVal.vfloat b])
        ∧ (tripleNonneg ret2.read ↔ 0 ≤ n ∧ 0 ≤ a.num ∧ 0 ≤ b.num))
    ∧ (∀ (ret ret2 : ResultRecord) (line : String) (n : Int) (a b : PyRat),
        strContains line "read_ops" = false →
        strContains line "write_ops" = true →
        extract_nums line = Except.ok (n, a, b) →
        rbdStep ret line = Except.ok ret2 →
        ret2.write = some (PyVal.vtuple
          [PyVal.vint n, PyVal.vfloat a, PyVal.vfloat b])
        ∧ (tripleNonneg ret2.write ↔ 0 ≤ n ∧ 0 ≤ a.num ∧ 0 ≤ b.num))
    ∧ (∀ (jobs rd : List (String × PyVal)) (key : String)
         (out : ResultRecord) (n : Int) (a b : PyRat),
        jobs.lookup key = some (PyVal.vdict rd) →
        rd ≠ [] →
        rd.lookup "total_ios" = some (PyVal.vint n) →
        rd.lookup "iops" = some (PyVal.vfloat a) →
        rd.lookup "bw" = some (PyVal.vfloat b) →
        extract_fio_info (PyVal.vdict jobs) key out
          = Except.ok (recSet out key (PyVal.vtuple
              [PyVal.vint n, PyVal.vfloat a, PyVal.vfloat b]))
        ∧ (tripleNonneg (some (PyVal.vtuple
              [PyVal.vint n, PyVal.vfloat a, PyVal.vfloat b]))
            ↔ 0 ≤ n ∧ 0 ≤ a.num ∧ 0 ≤ b.num)) := by
  refine ⟨?_, ?_, ?_⟩
  · intro ret ret2 line n a b hr hx hstep
    rw [rbdStep_read_set ret line (n, a, b) hr hx, Except.ok.injEq] at hstep
    rw [← hstep]
    exact ⟨rfl, Iff.rfl⟩
  · intro ret ret2 line n a b h1 h2 hx hstep
    rw [rbdStep_write_set ret line (n, a, b) h1 h2 hx,
      Except.ok.injEq] at hstep
    rw [← hstep]
    exact ⟨rfl, Iff.rfl⟩
  · intro jobs rd key out n a b hk hrd ht hi hb
    have hempty : rd.isEmpty = false := by
      cases rd
      · exact absurd rfl hrd
      · rfl
    refine ⟨?_, Iff.rfl⟩
    simp only [extract_fio_info, pyGet, pySubscriptStr, truthy, hk, ht, hi,
      hb, hempty]
    rfl

/-- C4 (witness): the amended theorem applied to a concrete read line, a
concrete write line, and a concrete structured-report entry, all with
non-negative values. -/
theorem claim4_witness :
    ((⟨none, some (PyVal.vtuple
        [PyVal.vint 5, PyVal.vfloat ⟨5, 2⟩, PyVal.vfloat ⟨7, 2⟩]), none⟩ :
      ResultRecord).read
      = some (PyVal.vtuple [PyVal.vint 5, PyVal.vfloat ⟨5, 2⟩, PyVal.vfloat ⟨7, 2⟩])
    ∧ (tripleNonneg ((⟨none, some (PyVal.vtuple
        [PyVal.vint 5, PyVal.vfloat ⟨5, 2⟩, PyVal.vfloat ⟨7, 2⟩]), none⟩ :
        ResultRecord).read)
        ↔ 0 ≤ (5 : Int) ∧ 0 ≤ (⟨5, 2⟩ : PyRat).num ∧ 0 ≤ (⟨7, 2⟩ : PyRat).num))
    ∧ ((⟨none, none, some (PyVal.vtuple
        [PyVal.vint 5, PyVal.vfloat ⟨5, 2⟩, PyVal.vfloat ⟨7, 2⟩])⟩ :
      ResultRecord).write
      = some (PyVal.vtuple [PyVal.vint 5, PyVal.vfloat ⟨5, 2⟩, PyVal.vfloat ⟨7, 2⟩])
    ∧ (tripleNonneg ((⟨none, none, some (PyVal.vtuple
        [PyVal.vint 5, PyVal.vfloat ⟨5, 2⟩, PyVal.vfloat ⟨7, 2⟩])⟩ :
        ResultRecord).write)
        ↔ 0 ≤ (5 : Int) ∧ 0 ≤ (⟨5, 2⟩ : PyRat).num ∧ 0 ≤ (⟨7, 2⟩ : PyRat).num))
    ∧ (extract_fio_info (PyVal.vdict [("read", PyVal.vdict
          [("total_ios", PyVal.vint 500), ("iops", PyVal.vfloat ⟨40, 1⟩),
           ("bw", PyVal.vfloat ⟨2, 1⟩)])]) "read" ⟨none, none, none⟩
        = Except.ok (recSet ⟨none, none, none⟩ "read" (PyVal.vtuple
            [PyVal.vint 500, PyVal.vfloat ⟨40, 1⟩, PyVal.vfloat ⟨2, 1⟩]))
    ∧ (tripleNonneg (some (PyVal.vtuple
          [PyVal.vint 500, PyVal.vfloat ⟨40, 1⟩, PyVal.vfloat ⟨2, 1⟩]))
        ↔ 0 ≤ (500 : Int) ∧ 0 ≤ (⟨40, 1⟩ : PyRat).num
            ∧ 0 ≤ (⟨2, 1⟩ : PyRat).num)) :=
  ⟨claim4_triple_verbatim.1 ⟨none, none, none⟩ _ "read_ops 5 iops 2.5 bw 3.5"
      5 ⟨5, 2⟩ ⟨7, 2⟩ rfl rfl rfl,
   claim4_triple_verbatim.2.1 ⟨none, none, none⟩ _ "write_ops 5 iops 2.5 bw 3.5"
      5 ⟨5, 2⟩ ⟨7, 2⟩ rfl rfl rfl rfl,
   claim4_triple_verbatim.2.2 [("read", PyVal.vdict
      [("total_ios", PyVal.vint 500), ("iops", PyVal.vfloat ⟨40, 1⟩),
       ("bw", PyVal.vfloat ⟨2, 1⟩)])]
      [("total_ios", PyVal.vint 500), ("iops", PyVal.vfloat ⟨40, 1⟩),
       ("bw", PyVal.vfloat ⟨2, 1⟩)] "read" ⟨none, none, none⟩
      500 ⟨40, 1⟩ ⟨2, 1⟩ rfl (List.cons_ne_nil _ _) rfl rfl rfl⟩

/-- C5: the dispatcher returns the `None` sentinel for every string other
than the three recognized benchmark names, and a parser variant for each
of those three; on the sentinel the caller emits the
`Invalid benchmark specified` diagnostic and aborts only that run. -/
theorem claim5_dispatch (s : String)
    (h1 : s ≠ "fio") (h2 : s ≠ "rbd-bench") (h3 : s ≠ "rados-bench") :
    getParser s = none
    ∧ dispatch_phase s = (none, [OutLine.invalidBenchmark s])
    ∧ getParser "fio" = some ParserKind.fio
    ∧ getParser "rbd-bench" = some ParserKind.rbdBench
    ∧ getParser "rados-bench" = some ParserKind.radosBench := by
  have hn : getParser s = none := by
    unfold getParser
    rw [if_neg h1, if_neg h2, if_neg h3]
  refine ⟨hn, ?_, rfl, rfl, rfl⟩
  unfold dispatch_phase
  rw [hn]

/-- C5 (witness): the dispatch theorem applied to the unrecognized name
`bogus`. -/
theorem claim5_witness :
    getParser "bogus" = none
    ∧ dispatch_phase "bogus" = (none, [OutLine.invalidBenchmark "bogus"])
    ∧ getParser "fio" = some ParserKind.fio
    ∧ getParser "rbd-bench" = some ParserKind.rbdBench
    ∧ getParser "rados-bench" = some ParserKind.radosBench :=
  claim5_dispatch "bogus" (by decide) (by decide) (by decide)

/-- C7: the rados-bench variant raises `NotImplementedError` on every
input, including the empty string; it is never a silent no-op. -/
theorem claim7_rados_not_implemented (msg : String) :
    parse_rados_bench msg =
      Except.error (PyErr.notImplementedError "Not implemented yet") :=
  rfl

/-- C2 (counterexample): invoking the reporter on a record missing `write`
raises the `KeyError`, but only after the benchmark-name header line has
already been printed — the output before the error is not empty, so
partial output is produced. -/
theorem claim2_counterexample :
    print_results ⟨some (PyVal.vfloat ⟨1, 1⟩),
      some (PyVal.vtuple [PyVal.vint 1, PyVal.vfloat ⟨1, 1⟩, PyVal.vfloat ⟨1, 1⟩]),
      none⟩ "fio"
      = ([OutLine.ranBenchmark "fio"], some (PyErr.keyError "write"))
    ∧ ([OutLine.ranBenchmark "fio"] : List OutLine) ≠ [] :=
  ⟨rfl, by simp⟩

/-- C2 (amended): on a record missing `read` or `write` the reporter
raises the `KeyError` for the missing direction after printing only the
benchmark-name header line (no metric lines); the caller catches it,
prints the `Failed to print results` diagnostic with the underlying
cause, and returns normally. -/
theorem claim2_missing_direction (pd : ResultRecord) (nm : String)
    (h : pd.read = none ∨ pd.write = none) :
    ∃ k, (k = "read" ∨ k = "write")
    ∧ print_results pd nm = ([OutLine.ranBenchmark nm], some (PyErr.keyError k))
    ∧ report_phase pd nm
        = [OutLine.ranBenchmark nm,
           OutLine.failedToPrint (pyErrStr (PyErr.keyError k))] := by
  cases hr : pd.read with
  | none =>
    have hpr : print_results pd nm
        = ([OutLine.ranBenchmark nm], some (PyErr.keyError "read")) := by
      simp only [print_results, hr]
    refine ⟨"read", Or.inl rfl, hpr, ?_⟩
    simp [report_phase, hpr, pyErrStr]
  | some r =>
    cases hw : pd.write with
    | none =>
      have hpr : print_results pd nm
          = ([OutLine.ranBenchmark nm], some (PyErr.keyError "write")) := by
        simp only [print_results, hr, hw]
      refine ⟨"write", Or.inr rfl, hpr, ?_⟩
      simp [report_phase, hpr, pyErrStr]
    | some w =>
      rcases h with h | h
      · rw [hr] at h
        exact absurd h (by simp)
      · rw [hw] at h
        exact absurd h (by simp)

/-- C2 (witness): the amended theorem applied to a record with no `read`
field. -/
theorem claim2_witness :
    ∃ k, (k = "read" ∨ k = "write")
    ∧ print_results (⟨some (PyVal.vint 1), none, none⟩ : ResultRecord) "rbd-bench"
        = ([OutLine.ranBenchmark "rbd-bench"], some (PyErr.keyError k))
    ∧ report_phase (⟨some (PyVal.vint 1), none, none⟩ : ResultRecord) "rbd-bench"
        = [OutLine.ranBenchmark "rbd-bench",
           OutLine.failedToPrint (pyErrStr (PyErr.keyError k))] :=
  claim2_missing_direction ⟨some (PyVal.vint 1), none, none⟩ "rbd-bench"
    (Or.inl rfl)

/-- C9: the reporter has no zero guard on `elapsed`: on a record with both
directions populated by numeric triples and `elapsed` equal to integer or
float zero, evaluating the aggregate line raises `ZeroDivisionError`, so
only the header is printed and no summary is produced. -/
theorem claim9_zero_elapsed (nm : String) (rc wc : Int) (rr rb wr wb : PyRat)
    (e : PyVal) (he : e = PyVal.vint 0 ∨ e = PyVal.vfloat ⟨0, 1⟩) :
    print_results ⟨some e,
      some (PyVal.vtuple [PyVal.vint rc, PyVal.vfloat rr, PyVal.vfloat rb]),
      some (PyVal.vtuple [PyVal.vint wc, PyVal.vfloat wr, PyVal.vfloat wb])⟩ nm
      = ([OutLine.ranBenchmark nm], some PyErr.zeroDivisionError) := by
  rcases he with rfl | rfl <;>
    simp [print_results, numOps, pySubscriptNat, pyAdd, summaryFstring,
      pyFormatNum, pyDiv, List.get?]

/-- C9 (witness): the theorem applied to a concrete record with zero
elapsed time. -/
theorem claim9_witness :
    print_results ⟨some (PyVal.vint 0),
      some (PyVal.vtuple [PyVal.vint 1, PyVal.vfloat ⟨1, 1⟩, PyVal.vfloat ⟨1, 1⟩]),
      some (PyVal.vtuple [PyVal.vint 2, PyVal.vfloat ⟨1, 1⟩, PyVal.vfloat ⟨1, 1⟩])⟩ "x"
      = ([OutLine.ranBenchmark "x"], some PyErr.zeroDivisionError) :=
  claim9_zero_elapsed "x" 1 2 ⟨1, 1⟩ ⟨1, 1⟩ ⟨1, 1⟩ ⟨1, 1⟩ (PyVal.vint 0)
    (Or.inl rfl)

/-- C10: for every line of the line-oriented variant A, the `if/elif`
chain classifies it by the first matching marker in the fixed order
`read_ops`, then `write_ops`, then `elapsed`: on success the result is
exactly the input record with only the highest-priority matching field
replaced by that line's extracted value — every other marker the line
carries is ignored. -/
theorem claim10_priority (ret ret2 : ResultRecord) (line : String)
    (hstep : rbdStep ret line = Except.ok ret2) :
    (strContains line "read_ops" = true →
        ∃ t, extract_nums line = Except.ok t
          ∧ ret2 = { ret with read := some (tripleOfNums t) })
    ∧ (strContains line "read_ops" = false →
       strContains line "write_ops" = true →
        ∃ t, extract_nums line = Except.ok t
          ∧ ret2 = { ret with write := some (tripleOfNums t) })
    ∧ (strContains line "read_ops" = false →
       strContains line "write_ops" = false →
       strContains line "elapsed" = true →
        ∃ t, extract_nums line = Except.ok t
          ∧ ret2 = { ret with elapsed := some (PyVal.vint t.1) }) := by
  refine ⟨?_, ?_, ?_⟩
  · intro h1
    rw [rbdStep, if_pos h1] at hstep
    cases hx : extract_nums line with
    | error e =>
      rw [hx] at hstep
      exact absurd hstep (by simp)
    | ok t =>
      rw [hx, Except.ok.injEq] at hstep
      exact ⟨t, rfl, hstep.symm⟩
  · intro h1 h2
    rw [rbdStep, if_neg (by simp [h1]), if_pos h2] at hstep
    cases hx : extract_nums line with
    | error e =>
      rw [hx] at hstep
      exact absurd hstep (by simp)
    | ok t =>
      rw [hx, Except.ok.injEq] at hstep
      exact ⟨t, rfl, hstep.symm⟩
  · intro h1 h2 h3
    rw [rbdStep, if_neg (by simp [h1]), if_neg (by simp [h2]),
      if_pos h3] at hstep
    cases hx : extract_nums line with
    | error e =>
      rw [hx] at hstep
      exact absurd hstep (by simp)
    | ok t =>
      rw [hx, Except.ok.injEq] at hstep
      exact ⟨t, rfl, hstep.symm⟩

/-- C10 (witness): the theorem applied to a line carrying all three
markers (only `read` is set) and to a line carrying `write_ops` and
`elapsed` (only `write` is set). -/
theorem claim10_witness :
    (∃ t, extract_nums "read_ops 1 write_ops 2 elapsed 3" = Except.ok t
      ∧ (⟨none, some (PyVal.vtuple
            [PyVal.vint 1, PyVal.vfloat ⟨2, 1⟩, PyVal.vfloat ⟨3, 1⟩]), none⟩ :
          ResultRecord)
        = { (⟨none, none, none⟩ : ResultRecord) with
            read := some (tripleOfNums t) })
    ∧ (∃ t, extract_nums "write_ops 1 elapsed 2 x 3" = Except.ok t
      ∧ (⟨none, none, some (PyVal.vtuple
            [PyVal.vint 1, PyVal.vfloat ⟨2, 1⟩, PyVal.vfloat ⟨3, 1⟩])⟩ :
          ResultRecord)
        = { (⟨none, none, none⟩ : ResultRecord) with
            write := some (tripleOfNums t) }) :=
  ⟨(claim10_priority ⟨none, none, none⟩
      ⟨none, some (PyVal.vtuple
        [PyVal.vint 1, PyVal.vfloat ⟨2, 1⟩, PyVal.vfloat ⟨3, 1⟩]), none⟩
      "read_ops 1 write_ops 2 elapsed 3" rfl).1 rfl,
   (claim10_priority ⟨none, none, none⟩
      ⟨none, none, some (PyVal.vtuple
        [PyVal.vint 1, PyVal.vfloat ⟨2, 1⟩, PyVal.vfloat ⟨3, 1⟩])⟩
      "write_ops 1 elapsed 2 x 3" rfl).2.1 rfl rfl⟩

/-- C8: the numeric line extractor returns `(int(tok1), float(tok3),
float(tok5))` whenever tokens at indices 1, 3, 5 exist and parse as
numbers; conversely every successful return came from such tokens of a
line with at least 6 whitespace-separated tokens — a violated
precondition can only propagate as an error, never produce a defaulted
value. -/
theorem claim8_extract_nums (line : String) :
    (∀ t1 t3 t5 n a b,
        (pySplit line).get? 1 = some t1 →
        (pySplit line).get? 3 = some t3 →
        (pySplit line).get? 5 = some t5 →
        pyIntOfString t1 = Except.ok n →
        pyFloatOfString t3 = Except.ok a →
        pyFloatOfString t5 = Except.ok b →
        extract_nums line = Except.ok (n, a, b))
    ∧ (∀ n a b, extract_nums line = Except.ok (n, a, b) →
        6 ≤ (pySplit line).length
        ∧ ∃ t1 t3 t5,
            (pySplit line).get? 1 = some t1 ∧ pyIntOfString t1 = Except.ok n
          ∧ (pySplit line).get? 3 = some t3 ∧ pyFloatOfString t3 = Except.ok a
          ∧ (pySplit line).get? 5 = some t5 ∧ pyFloatOfString t5 = Except.ok b) := by
  constructor
  · intro t1 t3 t5 n a b h1 h3 h5 hn ha hb
    simp only [extract_nums, pyListGet, h1, h3, h5, hn, ha, hb]
  · intro n a b h
    simp only [extract_nums, pyListGet] at h
    cases h1 : (pySplit line).get? 1 with
    | none => rw [h1] at h; exact absurd h (by simp)
    | some t1 =>
    rw [h1] at h
    dsimp only at h
    cases hn : pyIntOfString t1 with
    | error e => rw [hn] at h; exact absurd h (by simp)
    | ok n0 =>
    rw [hn] at h
    dsimp only at h
    cases h3 : (pySplit line).get? 3 with
    | none => rw [h3] at h; exact absurd h (by simp)
    | some t3 =>
    rw [h3] at h
    dsimp only at h
    cases ha : pyFloatOfString t3 with
    | error e => rw [ha] at h; exact absurd h (by simp)
    | ok a0 =>
    rw [ha] at h
    dsimp only at h
    cases h5 : (pySplit line).get? 5 with
    | none => rw [h5] at h; exact absurd h (by simp)
    | some t5 =>
    rw [h5] at h
    dsimp only at h
    cases hb : pyFloatOfString t5 with
    | error e => rw [hb] at h; exact absurd h (by simp)
    | ok b0 =>
    rw [hb] at h
    dsimp only at h
    rw [Except.ok.injEq, Prod.mk.injEq, Prod.mk.injEq] at h
    obtain ⟨rfl, rfl, rfl⟩ := h
    obtain ⟨hlt, -⟩ := List.get?_eq_some.mp h5
    exact ⟨by omega, t1, t3, t5, rfl, hn, rfl, ha, rfl, hb⟩

/-- C8 (witness): the extractor theorem applied to a concrete line. -/
theorem claim8_witness :
    extract_nums "foo 7 bar 2.5 baz 10" = Except.ok (7, ⟨5, 2⟩, ⟨10, 1⟩) :=
  (claim8_extract_nums "foo 7 bar 2.5 baz 10").1 "7" "2.5" "10"
    7 ⟨5, 2⟩ ⟨10, 1⟩ rfl rfl rfl rfl rfl rfl

/-- C1: for every structured report whose first job record has `elapsed`,
a non-empty `read` dict with the three metric fields, and no `write` key,
the structured-report variant succeeds with `elapsed` copied verbatim,
`read` the verbatim `(total_ios, iops, bw)` triple, and `write` absent —
the absent `write` key is not an error. -/
theorem claim1_fio_read_only
    (top jobs rd : List (String × PyVal)) (restJobs : List PyVal)
    (ev t i b : PyVal)
    (htop : top.lookup "jobs" = some (PyVal.vlist (PyVal.vdict jobs :: restJobs)))
    (he : jobs.lookup "elapsed" = some ev)
    (hr : jobs.lookup "read" = some (PyVal.vdict rd))
    (hrd : rd ≠ [])
    (hw : jobs.lookup "write" = none)
    (ht : rd.lookup "total_ios" = some t)
    (hi : rd.lookup "iops" = some i)
    (hb : rd.lookup "bw" = some b) :
    parse_fio (PyVal.vdict top)
      = Except.ok ⟨some ev, some (PyVal.vtuple [t, i, b]), none⟩ := by
  have hempty : rd.isEmpty = false := by
    cases rd
    · exact absurd rfl hrd
    · rfl
  simp only [parse_fio, pySubscriptStr, pySubscriptNat, pyGet,
    extract_fio_info, truthy, recSet, List.get?, htop, he, hr, hw, ht, hi,
    hb, hempty]
  rfl

/-- C1 (witness): the theorem applied to the concrete structured report
of the specification's end-to-end example. -/
theorem claim1_witness :
    parse_fio (PyVal.vdict [("jobs", PyVal.vlist [PyVal.vdict
      [("elapsed", PyVal.vfloat ⟨25, 2⟩),
       ("read", PyVal.vdict [("total_ios", PyVal.vint 500),
         ("iops", PyVal.vfloat ⟨40, 1⟩), ("bw", PyVal.vint 2000)])]])])
      = Except.ok ⟨some (PyVal.vfloat ⟨25, 2⟩),
          some (PyVal.vtuple
            [PyVal.vint 500, PyVal.vfloat ⟨40, 1⟩, PyVal.vint 2000]),
          none⟩ :=
  claim1_fio_read_only _ _ _ [] _ _ _ _ rfl rfl rfl
    (List.cons_ne_nil _ _) rfl rfl rfl rfl

end CephBench
